import Mathlib

/-!
Verification development for the SDF-viewer repository.

The repository contains three Streamlit applications
(SDF-viewer_app001.py, SDF-viewer_app002.py, SDF-viewer_app003.py) that
share a pipeline: load a tabular dataset, filter it, paginate it, and
render one cached structure image per visible row.  This file embeds the
filter validator, the filter application paths, the pagination logic and
the render cache as executable Lean definitions and proves the specified
properties about them.
-/

namespace SDFViewer

/- ===== Expression validator: src/SDF-viewer_app001.py, _validate_query (lines 83-103) ===== -/

/-- Characters treated as word characters by the word-boundary test of the
rejection regex of _validate_query (line 86 of app001).  The class in the
source is the set of Unicode word characters; its ASCII part is exactly the
ASCII letters, digits and underscore, and every non-ASCII character is
conservatively treated here as a word character (the Unicode class is
contained in the union of the ASCII word characters and the non-ASCII
characters).  A character this test calls a non-word character is therefore
a non-word character of the source class as well, so every word-delimited
match found through this test is a match of the source regex. -/
def isWordChar (c : Char) : Bool := c.isAlphanum || c == '_' || decide (127 < c.toNat)

/-- Character admitted by the allowed-character check of _validate_query
(line 90), restricted to ASCII: ASCII word characters, whitespace, and the
listed punctuation.  The single and double quote characters are written by
code point (39 and 34).  The source class also admits non-ASCII Unicode
word characters, which this model does not; the acceptance direction of
claim C6 is therefore stated under the hypothesis that this check passes,
confining it to all-ASCII queries, on which the model and the source
coincide, and the rejection used by claim C2 is forced by the backtick,
which the model and the source both refuse. -/
def isAllowedChar (c : Char) : Bool :=
  c.isAlphanum || c == '_' || c.isWhitespace ||
  c == '&' || c == '|' || c == '~' || c == '<' || c == '>' || c == '=' || c == '!' ||
  c == '(' || c == ')' || c == '[' || c == ']' || c == ',' || c == '.' ||
  c == Char.ofNat 39 || c == Char.ofNat 34

/-- First character of an identifier token (line 94 of app001): a letter or
underscore. -/
def isIdentStart (c : Char) : Bool := c.isAlpha || c == '_'

/-- Continuation character of an identifier token: letter, digit or
underscore. -/
def isIdentChar (c : Char) : Bool := c.isAlphanum || c == '_'

/-- Test whether the first list occurs at the head of the second list. -/
def startsWithSeq : List Char → List Char → Bool
  | [], _ => true
  | _ :: _, [] => false
  | a :: as, b :: bs => (a == b) && startsWithSeq as bs

/-- Test whether the first list occurs as a contiguous run anywhere in the
second list. -/
def hasSubSeq (w : List Char) : List Char → Bool
  | [] => w.isEmpty
  | c :: rest => startsWithSeq w (c :: rest) || hasSubSeq w rest

/-- The denylist of dangerous identifiers from the first rejection regex of
_validate_query (line 86). -/
def denylist : List (List Char) :=
  ["import".data, "exec".data, "eval".data, "os".data, "sys".data, "subprocess".data]

/-- The two consecutive underscores matched by the first alternative of the
rejection regex at line 86 of app001. -/
def dunder : List Char := "__".data

/-- Word-delimited occurrence of `w` at index `i` of `s`: the characters of
`w` appear at `i`, and positions `i - 1` and `i + w.length` (when inside the
list) do not hold word characters.  This models a regex match of `w` between
two word boundaries; with the conservative word class above, a match here
implies a match of the source regex (neighbouring characters found to be
non-word are ASCII non-word characters, which the source class also
excludes). -/
def matchesWordAt (s : List Char) (i : Nat) (w : List Char) : Bool :=
  (decide (i = 0) || !isWordChar (s.getD (i - 1) ' ')) &&
  decide ((s.drop i).take w.length = w) &&
  (decide (i + w.length = s.length) || !isWordChar (s.getD (i + w.length) ' '))

/-- Some denylisted identifier occurs word-delimited somewhere in `s`. -/
def hasDenyWord (s : List Char) : Bool :=
  (List.range (s.length + 1)).any fun i => denylist.any fun w => matchesWordAt s i w

/-- The dangerous-construct rejection of line 86 of app001: two consecutive
underscores anywhere, or a word-delimited denylisted identifier. -/
def hasDangerous (q : String) : Bool :=
  hasSubSeq dunder q.data || hasDenyWord q.data

/-- The allowed-character full match of lines 90-92 of app001: the query is
nonempty and every character is in the allowed set. -/
def allowedOnly (q : String) : Bool :=
  !q.data.isEmpty && q.data.all isAllowedChar

/-- Worker for the token extraction of line 94 of app001: scans the
characters, accumulating the current identifier run (reversed) in `cur`,
and emits each maximal identifier run that starts with a letter or
underscore.  Backticks in the source pattern only delimit tokens and never
occur inside one, so maximal identifier runs coincide with the regex
captures. -/
def tokenizeGo : List Char → List Char → List (List Char)
  | [], [] => []
  | [], cur => [cur.reverse]
  | c :: rest, [] =>
    if isIdentStart c then tokenizeGo rest [c] else tokenizeGo rest []
  | c :: rest, cur =>
    if isIdentChar c then tokenizeGo rest (c :: cur)
    else cur.reverse :: tokenizeGo rest []

/-- Identifier tokens of a query, in order of appearance. -/
def tokenize (s : List Char) : List (List Char) := tokenizeGo s []

/-- Whether the Python float conversion at lines 99-102 of app001 succeeds on
a token.  Tokens always match letter-or-underscore followed by
letters, digits or underscores, and on such strings the conversion succeeds
exactly on the case-insensitive spellings of inf, infinity and nan. -/
def floatParseableToken (t : List Char) : Bool :=
  let l := t.map Char.toLower
  l = "inf".data || l = "infinity".data || l = "nan".data

/-- The keyword set of line 95 of app001. -/
def keywords : List String := ["and", "or", "not", "True", "False"]

/-- Per-token acceptance test of lines 96-102 of app001: the token is a known
column, a keyword, or converts to a float. -/
def tokenOk (cols : List String) (t : List Char) : Bool :=
  cols.any (fun c => c.data == t) || keywords.any (fun k => k.data == t) ||
  floatParseableToken t

/-- Full validator, modelling _validate_query of app001 (lines 83-103): the
query must avoid the dangerous constructs, pass the allowed-character full
match, and have every extracted token accepted. -/
def validate_query (cols : List String) (q : String) : Bool :=
  !hasDangerous q && (allowedOnly q && (tokenize q.data).all (tokenOk cols))

/- ===== Filter application paths ===== -/

/-- Query built by the simple filter builder of app001 (line 124): the
selected column wrapped in backticks, the operator, and the value. -/
def build_simple_query (col op val : String) : String :=
  "`" ++ col ++ "` " ++ op ++ " " ++ val

/-- Outcome of the app001 filter_dataframe query branch (lines 128-136):
`noQuery` when the query text is empty (no filtering), `applied` when the
validator accepts and the text is handed to the pandas query engine, and
`rejected` when the validator refuses, the error message is shown and the
frame is returned unchanged. -/
inductive QueryOutcome where
  | noQuery
  | applied
  | rejected
deriving DecidableEq

/-- Filter application of app001 filter_dataframe (lines 128-136). -/
def filter_dataframe (cols : List String) (q : String) : QueryOutcome :=
  if q = "" then QueryOutcome.noQuery
  else if validate_query cols q then QueryOutcome.applied
  else QueryOutcome.rejected

/-- Outcome of the app002 filter_dataframe (lines 83-95): a nonempty query
text is handed to the pandas query engine with no validation at all (only a
try/except around the evaluation). -/
inductive App002Outcome where
  | noQuery
  | passedToQuery
deriving DecidableEq

/-- Filter application of app002 filter_dataframe (lines 83-95). -/
def filter_dataframe_app002 (q : String) : App002Outcome :=
  if q = "" then App002Outcome.noQuery else App002Outcome.passedToQuery

/- ===== Expression evaluator and structured filters ===== -/

/-- A cell value: numeric, text, or null.  Numbers are modelled as exact
rationals. -/
inductive Value where
  | num (q : Rat)
  | str (s : String)
  | null
deriving DecidableEq

/-- A record maps column names to values; an absent association models an
absent cell. -/
abbrev Record := List (String × Value)

/-- Value of a column in a record, `none` when the column is absent. -/
def getCol (r : Record) (c : String) : Option Value :=
  (r.find? (fun e => e.1 == c)).map (fun e => e.2)

/-- The comparison operators of the filter grammar. -/
inductive CmpOp where
  | lt
  | le
  | gt
  | ge
  | eq
  | ne
deriving DecidableEq

/-- An operand of a comparison: a column reference or a literal. -/
inductive Operand where
  | col (name : String)
  | numLit (q : Rat)
  | strLit (s : String)
deriving DecidableEq

/-- Filter expression tree: comparisons combined by boolean connectives. -/
inductive FilterExpr where
  | cmp (lhs : Operand) (op : CmpOp) (rhs : Operand)
  | and (l r : FilterExpr)
  | or (l r : FilterExpr)
  | not (e : FilterExpr)
deriving DecidableEq

/-- Numeric comparison. -/
def evalCmpNum (op : CmpOp) (a b : Rat) : Bool :=
  match op with
  | CmpOp.lt => decide (a < b)
  | CmpOp.le => decide (a ≤ b)
  | CmpOp.gt => decide (b < a)
  | CmpOp.ge => decide (b ≤ a)
  | CmpOp.eq => decide (a = b)
  | CmpOp.ne => decide (a ≠ b)

/-- Textual comparison, lexicographic on the character sequences. -/
def evalCmpStr (op : CmpOp) (a b : String) : Bool :=
  match op with
  | CmpOp.lt => decide (a < b)
  | CmpOp.le => decide (a ≤ b)
  | CmpOp.gt => decide (b < a)
  | CmpOp.ge => decide (b ≤ a)
  | CmpOp.eq => decide (a = b)
  | CmpOp.ne => decide (a ≠ b)

/-- Modelled from the spec: textual rendering of a value for the mixed-type
branch of a comparison (section 4.2; the evaluation engine itself is the
external pandas query engine, absent from src/).  A null value has no text,
making any comparison that touches it false.  The exact rendering of a
number is immaterial to the verified claims. -/
def valueText : Value → Option String
  | Value.num q => some (toString q.num ++ "/" ++ toString q.den)
  | Value.str s => some s
  | Value.null => none

/-- Modelled from the spec: comparison semantics of section 4.2.  If both
sides are numeric the comparison is numeric; otherwise both sides are
compared as text; a null or absent side makes the comparison false. -/
def evalComparison (op : CmpOp) (a b : Option Value) : Bool :=
  match a, b with
  | some (Value.num x), some (Value.num y) => evalCmpNum op x y
  | some u, some v =>
    match valueText u, valueText v with
    | some s, some t => evalCmpStr op s t
    | _, _ => false
  | _, _ => false

/-- Value of an operand for a given record. -/
def evalOperand (r : Record) : Operand → Option Value
  | Operand.col c => getCol r c
  | Operand.numLit q => some (Value.num q)
  | Operand.strLit s => some (Value.str s)

/-- Modelled from the spec: evaluation of a filter expression tree on one
record (section 4.2). -/
def evalExpr (r : Record) : FilterExpr → Bool
  | FilterExpr.cmp lhs op rhs => evalComparison op (evalOperand r lhs) (evalOperand r rhs)
  | FilterExpr.and a b => evalExpr r a && evalExpr r b
  | FilterExpr.or a b => evalExpr r a || evalExpr r b
  | FilterExpr.not a => !evalExpr r a

/-- Modelled from the spec: evaluation of a filter expression over a dataset
(section 4.2), keeping the records it accepts, in order. -/
def evaluate (e : FilterExpr) (d : List Record) : List Record :=
  d.filter fun r => evalExpr r e

/-- Case-insensitive substring containment, modelling the str.contains call
with case False in search_dataframe of app003 (line 147). -/
def containsCI (hay needle : String) : Bool :=
  hasSubSeq (needle.data.map Char.toLower) (hay.data.map Char.toLower)

/-- Row mask of the SMILES substring search of app003 (line 147): a null or
absent or non-text SMILES cell yields false (the na False argument). -/
def smiles_mask (needle : String) (r : Record) : Bool :=
  match getCol r "SMILES" with
  | some (Value.str s) => containsCI s needle
  | _ => false

/-- SMILES substring search over a dataset (app003 lines 146-148). -/
def search_smiles (needle : String) (d : List Record) : List Record :=
  d.filter (smiles_mask needle)

/-- Row mask of one numeric range filter of app003 (lines 152-155): the cell
must be numeric and inside the inclusive range; a null or absent cell
compares false, as NaN does in the source. -/
def range_mask (c : String) (lo hi : Rat) (r : Record) : Bool :=
  match getCol r c with
  | some (Value.num q) => decide (lo ≤ q) && decide (q ≤ hi)
  | _ => false

/-- Inclusive numeric range filter over a dataset (app003 lines 152-155). -/
def filter_numeric_range (c : String) (lo hi : Rat) (d : List Record) : List Record :=
  d.filter (range_mask c lo hi)

/- ===== Render cache ===== -/

/-- Modelled from the spec: the bounded render cache of section 4.3.  The
source backs it by the external functools lru_cache decorator on _cached_svg
(app002 lines 65-74, app003 lines 93-102), which is not part of src/.
Entries are most-recently-used first. -/
structure LruCache (K V : Type) where
  capacity : Nat
  entries : List (K × V)
  hits : Nat
  misses : Nat
deriving DecidableEq

/-- Modelled from the spec: the getOrCompute contract of section 4.3.  On a
hit the entry moves to the front (most recently used) and the stored value
is returned without invoking the compute function; on a miss the compute
function runs, the result is inserted at the front, and if the cache now
exceeds its capacity the last (least recently used) entry is dropped. -/
def getOrCompute {K V : Type} [DecidableEq K] (c : LruCache K V) (k : K) (f : K → V) :
    V × LruCache K V :=
  match c.entries.find? (fun e => decide (e.1 = k)) with
  | some e =>
    (e.2, { c with
            hits := c.hits + 1,
            entries := (k, e.2) :: c.entries.filter (fun e2 => !decide (e2.1 = k)) })
  | none =>
    let v := f k
    let inserted := (k, v) :: c.entries
    (v, { c with
          misses := c.misses + 1,
          entries := if c.capacity < inserted.length then inserted.dropLast else inserted })

/-- Empty cache of capacity two, for the concrete scenario of claim C8. -/
def c8cache0 : LruCache Nat Nat := { capacity := 2, entries := [], hits := 0, misses := 0 }

/-- Compute function for the concrete scenario of claim C8. -/
def c8f : Nat → Nat := fun k => k + 100

/-- Cache state after inserting keys 1, 2, 3 in that order into the empty
capacity-two cache. -/
def c8s3 : LruCache Nat Nat :=
  (getOrCompute (getOrCompute (getOrCompute c8cache0 1 c8f).2 2 c8f).2 3 c8f).2

/-- The cache hit-rate line of the Performance Info panel of app003
(line 515): the source divides hits by hits plus misses with no guard, so
the computation raises a division-by-zero error when no lookup has
happened; the failure is modelled by `none`. -/
def performance_hit_rate (hits misses : Nat) : Option Rat :=
  if hits + misses = 0 then none
  else some ((hits : Rat) / ((hits : Rat) + (misses : Rat)))

/- ===== Paginator ===== -/

/-- Total page count of app003 main (line 461): the ceiling of the row count
divided by the page size, modelled with exact integer arithmetic. -/
def total_pages (n page_size : Nat) : Nat := (n + page_size - 1) / page_size

/-- The stale-page fix-up of app003 main (lines 464-465): a current page
beyond the last page is reset to page one; anything else is kept. -/
def reset_page_if_out_of_bounds (current total : Nat) : Nat :=
  if total < current then 1 else current

/-- Follows the words of claim C4: clamping a page into the interval from
one to the total page count. -/
def clamp_page_claim (p total : Nat) : Nat := max 1 (min p total)

/-- Pagination pass of app003 main (lines 454-491): with no rows the
function warns and returns before any pagination (modelled by `none`);
otherwise it computes the total page count, fixes up a stale current page,
and produces the start and end indices of the window. -/
def paginate_main (n page_size current : Nat) : Option (Nat × Nat × Nat) :=
  if n = 0 then none
  else
    let tp := total_pages n page_size
    let cp := reset_page_if_out_of_bounds current tp
    let s := (cp - 1) * page_size
    some (tp, s, min (s + page_size) n)

/-- Navigation logic of display_pagination_controls of app003
(lines 339-352): the button flags are the pressed states, and the jump
value comes from a number input bounded between one and the total page
count. -/
def display_pagination_controls (current total : Nat)
    (firstB prevB nextB lastB : Bool) (jump : Nat) : Nat :=
  if firstB then 1
  else if prevB && decide (1 < current) then current - 1
  else if nextB && decide (current < total) then current + 1
  else if lastB then total
  else if jump ≠ current then jump
  else current

/- ===== Auxiliary concrete objects used by the claim theorems ===== -/

/-- The backtick character, by code point. -/
def backtickChar : Char := Char.ofNat 96

/-- Follows the words of claim C6: a token is accepted when it is a member of
the known columns, a boolean literal true or false, a boolean keyword and,
or, not, or is parseable as a number. -/
def claim_token_accepted (cols : List String) (t : List Char) : Bool :=
  cols.any (fun c => c.data == t) || ("true".data == t) || ("false".data == t) ||
  ("and".data == t) || ("or".data == t) || ("not".data == t) || floatParseableToken t

/-- Amended per-token rule of claim C6: what the code accepts, with the
Python capitalization of the boolean literals. -/
def amended_token_accepted (cols : List String) (t : List Char) : Bool :=
  cols.any (fun c => c.data == t) ||
  (["and", "or", "not", "True", "False"] : List String).any (fun k => k.data == t) ||
  floatParseableToken t

/-- Concrete full cache used by the witness of claim C8. -/
def c8wc : LruCache Nat Nat :=
  { capacity := 2, entries := [(5, 50), (6, 60)], hits := 0, misses := 0 }

/-- Concrete unsafe query used by the witness of claim C1. -/
def importOsQuery : String := "import os"

end SDFViewer

namespace SDFViewer

/- ===== Helper lemmas ===== -/

/-- The character data of an appended string is the appended character
data. -/
theorem strData_append (s t : String) : (s ++ t).data = s.data ++ t.data := rfl

/-- A prefix test against an appended pattern implies the prefix test
against its first part. -/
theorem startsWithSeq_of_append (w1 w2 : List Char) :
    ∀ s, startsWithSeq (w1 ++ w2) s = true → startsWithSeq w1 s = true := by
  induction w1 with
  | nil => intro s _; rfl
  | cons a t ih =>
    intro s h
    cases s with
    | nil => simp [startsWithSeq] at h
    | cons b bs =>
      simp only [List.cons_append, startsWithSeq, Bool.and_eq_true] at h ⊢
      exact ⟨h.1, ih bs h.2⟩

/-- Containment of an appended pattern implies containment of its first
part. -/
theorem hasSubSeq_of_append (w1 w2 : List Char) :
    ∀ s, hasSubSeq (w1 ++ w2) s = true → hasSubSeq w1 s = true := by
  intro s
  induction s with
  | nil =>
    intro h
    simp only [hasSubSeq, List.isEmpty_iff, List.append_eq_nil] at h ⊢
    exact h.1
  | cons c rest ih =>
    intro h
    simp only [hasSubSeq, Bool.or_eq_true] at h ⊢
    rcases h with h | h
    · exact Or.inl (startsWithSeq_of_append w1 w2 _ h)
    · exact Or.inr (ih h)

/-- A query rejected by the dangerous-construct check fails validation. -/
theorem validate_query_of_dangerous (cols : List String) (q : String)
    (h : hasDangerous q = true) : validate_query cols q = false := by
  simp [validate_query, h]

/-- A query rejected by the allowed-character check fails validation. -/
theorem validate_query_of_bad_chars (cols : List String) (q : String)
    (h : allowedOnly q = false) : validate_query cols q = false := by
  simp [validate_query, h]

/-- Filtering a list twice with the same predicate equals filtering once. -/
theorem filter_idem {α : Type} (p : α → Bool) (l : List α) :
    (l.filter p).filter p = l.filter p := by
  induction l with
  | nil => rfl
  | cons a t ih => cases h : p a <;> simp [List.filter_cons, h, ih]

/-- A comparison whose one side is null or absent is false, whatever the
other side is. -/
theorem evalComparison_null (op : CmpOp) :
    ∀ b : Option Value,
      evalComparison op none b = false ∧ evalComparison op (some Value.null) b = false ∧
      evalComparison op b none = false ∧ evalComparison op b (some Value.null) = false := by
  intro b
  rcases b with _ | v
  · exact ⟨rfl, rfl, rfl, rfl⟩
  · rcases v with q | s | _ <;> exact ⟨rfl, rfl, rfl, rfl⟩

/- ===== Claim theorems ===== -/

/-- Claim C1, counterexample: the claim asserts that every filter text
containing a denylisted identifier or a double-underscore token is rejected
by validation before any evaluation; but the app002 variant of
filter_dataframe, cited by the claim, performs no validation and hands the
text with the dunder import identifier directly to the pandas query
evaluation. -/
theorem c1_counterexample :
    filter_dataframe_app002 "__import__" = App002Outcome.passedToQuery := by decide

/-- Claim C1, amended: in app001, whose filter path runs _validate_query,
every filter text containing a denylisted identifier (the import, exec,
eval, os, sys and subprocess names) delimited by the text boundaries or by
ASCII non-word characters — so that the source regex finds it word
delimited — or two consecutive underscores anywhere — in particular any
text containing the dunder import identifier — fails validation and the
filter is not applied: the outcome is the rejection branch that shows the
unsafe-query error and leaves the frame unchanged. -/
theorem c1_amended (cols : List String) (q : String)
    (h : (∃ i w, w ∈ denylist ∧ matchesWordAt q.data i w = true) ∨
         hasSubSeq dunder q.data = true ∨
         hasSubSeq ("__import__".data) q.data = true) :
    validate_query cols q = false ∧ filter_dataframe cols q = QueryOutcome.rejected := by
  have hdang : hasDangerous q = true := by
    rcases h with ⟨i, w, hw, hm⟩ | h | h
    · have hwne : w ≠ [] := by
        have hall : ∀ w ∈ denylist, w ≠ [] := by decide
        exact hall w hw
      have hm2 : (q.data.drop i).take w.length = w := by
        have := (Bool.and_eq_true _ _).mp hm
        exact of_decide_eq_true ((Bool.and_eq_true _ _).mp this.1).2
      have hi : i < q.data.length + 1 := by
        by_contra hge
        push_neg at hge
        have hdrop : q.data.drop i = [] := List.drop_eq_nil_of_le (by omega)
        rw [hdrop, List.take_nil] at hm2
        exact hwne hm2.symm
      refine (Bool.or_eq_true _ _).mpr (Or.inr ?_)
      unfold hasDenyWord
      rw [List.any_eq_true]
      exact ⟨i, List.mem_range.mpr hi, List.any_eq_true.mpr ⟨w, hw, hm⟩⟩
    · exact (Bool.or_eq_true _ _).mpr (Or.inl h)
    · have heq : dunder ++ ("import__".data) = "__import__".data := by decide
      rw [← heq] at h
      exact (Bool.or_eq_true _ _).mpr (Or.inl (hasSubSeq_of_append dunder _ _ h))
  have hne : q ≠ "" := by
    intro he
    rw [he] at hdang
    exact absurd hdang (by decide)
  have hv : validate_query cols q = false := validate_query_of_dangerous cols q hdang
  exact ⟨hv, by simp [filter_dataframe, hne, hv]⟩

/-- Claim C1, witness: the concrete query with a word-delimited import
token is rejected and not applied. -/
theorem c1_witness :
    validate_query [] importOsQuery = false ∧
    filter_dataframe [] importOsQuery = QueryOutcome.rejected :=
  c1_amended [] importOsQuery (Or.inl ⟨0, "import".data, by decide, by decide⟩)

/-- Claim C2: every query built by the simple filter builder of app001
wraps the column in backticks, and the backtick is outside the allowed
character set of the validator, so for every column choice, listed
operator and nonempty value the built query fails validation, the filter is
never applied, and the unsafe-query rejection branch is taken. -/
theorem c2_backtick_rejected (cols : List String) (col op val : String)
    (_hop : op ∈ [">", "<", ">=", "<=", "==", "!="]) (_hval : val ≠ "") :
    validate_query cols (build_simple_query col op val) = false ∧
    filter_dataframe cols (build_simple_query col op val) = QueryOutcome.rejected := by
  have hmem : backtickChar ∈ (build_simple_query col op val).data := by
    unfold build_simple_query
    simp only [strData_append, List.mem_append]
    exact Or.inl (Or.inl (Or.inl (Or.inl (Or.inl (by decide)))))
  have hall : allowedOnly (build_simple_query col op val) = false := by
    unfold allowedOnly
    cases hq : (build_simple_query col op val).data.all isAllowedChar with
    | true =>
      have := List.all_eq_true.mp hq backtickChar hmem
      exact absurd this (by decide)
    | false => simp
  have hv : validate_query cols (build_simple_query col op val) = false :=
    validate_query_of_bad_chars _ _ hall
  have hne : build_simple_query col op val ≠ "" := by
    intro he
    rw [he] at hmem
    exact absurd hmem (by decide)
  exact ⟨hv, by simp [filter_dataframe, hne, hv]⟩

/-- Claim C2, witness: the concrete built query for the first operator and
a nonempty value is rejected and not applied. -/
theorem c2_witness :
    validate_query ["MW"] (build_simple_query "MW" ">" "5") = false ∧
    filter_dataframe ["MW"] (build_simple_query "MW" ">" "5") = QueryOutcome.rejected :=
  c2_backtick_rejected ["MW"] "MW" ">" "5" (by decide) (by decide)

/-- Claim C3: the hit-rate line of the Performance Info panel divides hits
by hits plus misses with no guard, so with zero lookups the computation is
undefined (a raised division-by-zero error, modelled as none) instead of
the zero hit rate required by the claim; with lookups present it equals the
claimed ratio, shown here at three hits and one miss. -/
theorem c3_hit_rate :
    performance_hit_rate 0 0 = none ∧ performance_hit_rate 3 1 = some (3 / 4) := by
  refine ⟨rfl, ?_⟩
  norm_num [performance_hit_rate]

/-- Claim C4, counterexample: a stale page seven with three total pages is
reset to page one by the code, whereas clamping into the interval from one
to the total page count, as the claim states, would give page three. -/
theorem c4_counterexample :
    reset_page_if_out_of_bounds 7 3 = 1 ∧ clamp_page_claim 7 3 = 3 ∧ (1 : Nat) ≠ 3 := by
  decide

/-- Claim C4, amended: a stale current page above the total page count is
reset to page one (not clamped to the last page); given a current page of
at least one and at least one total page, after the fix-up the page lies in
the interval from one to the total page count, and the navigation controls,
whose jump input is bounded to that interval, keep it there. -/
theorem c4_amended (p tp : Nat) (f pr nx l : Bool) (j : Nat)
    (hp : 1 ≤ p) (htp : 1 ≤ tp) (hj1 : 1 ≤ j) (hj2 : j ≤ tp) :
    (1 ≤ reset_page_if_out_of_bounds p tp ∧ reset_page_if_out_of_bounds p tp ≤ tp) ∧
    (1 ≤ display_pagination_controls (reset_page_if_out_of_bounds p tp) tp f pr nx l j ∧
      display_pagination_controls (reset_page_if_out_of_bounds p tp) tp f pr nx l j ≤ tp) := by
  have hq : 1 ≤ reset_page_if_out_of_bounds p tp ∧ reset_page_if_out_of_bounds p tp ≤ tp := by
    unfold reset_page_if_out_of_bounds
    split <;> omega
  refine ⟨hq, ?_⟩
  obtain ⟨hq1, hq2⟩ := hq
  unfold display_pagination_controls
  split_ifs with h1 h2 h3 h4 h5 <;> simp_all <;> omega

/-- Claim C4, witness: the amended statement at the stale page seven of
three total pages with no button pressed and jump value two. -/
theorem c4_witness :
    (1 ≤ reset_page_if_out_of_bounds 7 3 ∧ reset_page_if_out_of_bounds 7 3 ≤ 3) ∧
    (1 ≤ display_pagination_controls (reset_page_if_out_of_bounds 7 3) 3 false false false false 2 ∧
      display_pagination_controls (reset_page_if_out_of_bounds 7 3) 3 false false false false 2 ≤ 3) :=
  c4_amended 7 3 false false false false 2 (by decide) (by decide) (by decide) (by decide)

/-- Claim C5, counterexample: with zero rows the code warns and returns
before any pagination, so no page window is produced, whereas the claim
requires one total page with a valid empty window. -/
theorem c5_counterexample :
    paginate_main 0 20 1 = none ∧ (none : Option (Nat × Nat × Nat)) ≠ some (1, 0, 0) := by
  decide

/-- Claim C5, amended: for at least one row and a positive page size, the
pagination pass of app003 main runs and its total page count is the exact
ceiling of the row count divided by the page size (characterized by the two
inequalities), with the window computed from the fixed-up current page;
with zero rows the pass is skipped entirely instead of producing a single
empty page. -/
theorem c5_amended (n ps cp : Nat) (hn : 1 ≤ n) (hps : 1 ≤ ps) :
    n ≤ total_pages n ps * ps ∧ total_pages n ps * ps < n + ps ∧
    paginate_main n ps cp = some (total_pages n ps,
      (reset_page_if_out_of_bounds cp (total_pages n ps) - 1) * ps,
      min ((reset_page_if_out_of_bounds cp (total_pages n ps) - 1) * ps + ps) n) ∧
    paginate_main 0 ps cp = none := by
  have hd := Nat.div_add_mod (n + ps - 1) ps
  have hm : (n + ps - 1) % ps < ps := Nat.mod_lt _ (by omega)
  have hq : ps * ((n + ps - 1) / ps) = (n + ps - 1) - (n + ps - 1) % ps :=
    Nat.eq_sub_of_add_eq hd
  refine ⟨?_, ?_, ?_, rfl⟩
  · unfold total_pages
    rw [Nat.mul_comm, hq]
    omega
  · unfold total_pages
    rw [Nat.mul_comm, hq]
    omega
  · unfold paginate_main
    rw [if_neg (by omega)]

/-- Claim C5, witness: the amended statement at the forty-five rows and
page size twenty of the specification example. -/
theorem c5_witness :
    45 ≤ total_pages 45 20 * 20 ∧ total_pages 45 20 * 20 < 45 + 20 ∧
    paginate_main 45 20 1 = some (total_pages 45 20,
      (reset_page_if_out_of_bounds 1 (total_pages 45 20) - 1) * 20,
      min ((reset_page_if_out_of_bounds 1 (total_pages 45 20) - 1) * 20 + 20) 45) ∧
    paginate_main 0 20 1 = none :=
  c5_amended 45 20 1 (by decide) (by decide)

/-- Claim C7: a record whose value in the column referenced by a comparison
is null or absent makes that comparison false on either side, the record is
excluded while the rest of the dataset is processed normally (the pass is
not aborted: the filtered output splits around the excluded record), and
the same holds for a null or absent cell under the substring-search mask
and the numeric-range mask of app003. -/
theorem c7_null_comparison (r : Record) (c needle : String) (op : CmpOp) (x : Operand)
    (lo hi : Rat) (d1 d2 : List Record)
    (h : getCol r c = none ∨ getCol r c = some Value.null)
    (hs : getCol r "SMILES" = none ∨ getCol r "SMILES" = some Value.null) :
    evalExpr r (FilterExpr.cmp (Operand.col c) op x) = false ∧
    evalExpr r (FilterExpr.cmp x op (Operand.col c)) = false ∧
    evaluate (FilterExpr.cmp (Operand.col c) op x) (d1 ++ r :: d2) =
      evaluate (FilterExpr.cmp (Operand.col c) op x) d1 ++
      evaluate (FilterExpr.cmp (Operand.col c) op x) d2 ∧
    smiles_mask needle r = false ∧
    range_mask c lo hi r = false := by
  have h1 : evalExpr r (FilterExpr.cmp (Operand.col c) op x) = false := by
    rcases h with h | h <;> simp only [evalExpr, evalOperand, h]
    · exact (evalComparison_null op _).1
    · exact (evalComparison_null op _).2.1
  have h2 : evalExpr r (FilterExpr.cmp x op (Operand.col c)) = false := by
    rcases h with h | h <;> simp only [evalExpr, evalOperand, h]
    · exact (evalComparison_null op _).2.2.1
    · exact (evalComparison_null op _).2.2.2
  refine ⟨h1, h2, ?_, ?_, ?_⟩
  · simp [evaluate, List.filter_append, List.filter_cons, h1]
  · rcases hs with h | h <;> simp [smiles_mask, h]
  · rcases h with h | h <;> simp [range_mask, h]

/-- Claim C7, witness: the empty record has no MW and no SMILES cell, the
comparisons on it are false on both sides, the filter pass splits around
it, and the search and range masks are false. -/
theorem c7_witness :
    evalExpr [] (FilterExpr.cmp (Operand.col "MW") CmpOp.lt (Operand.numLit 0)) = false ∧
    evalExpr [] (FilterExpr.cmp (Operand.numLit 0) CmpOp.lt (Operand.col "MW")) = false ∧
    evaluate (FilterExpr.cmp (Operand.col "MW") CmpOp.lt (Operand.numLit 0))
        ([] ++ ([] : Record) :: []) =
      evaluate (FilterExpr.cmp (Operand.col "MW") CmpOp.lt (Operand.numLit 0)) [] ++
      evaluate (FilterExpr.cmp (Operand.col "MW") CmpOp.lt (Operand.numLit 0)) [] ∧
    smiles_mask "C" [] = false ∧
    range_mask "MW" 0 1 [] = false :=
  c7_null_comparison [] "MW" "C" CmpOp.lt (Operand.numLit 0) 0 1 [] []
    (Or.inl rfl) (Or.inl rfl)

/-- Claim C6, counterexample: the claim says the lowercase boolean literal
true is an accepted bare identifier, but the validator rejects the query
consisting of it (the code keyword set holds the Python capitalized
spellings); additionally the validator extracts identifier tokens from
inside quoted literals, so a well-formed comparison against an unknown
quoted word is also rejected. -/
theorem c6_counterexample :
    validate_query ["MW"] "true" = false ∧
    claim_token_accepted ["MW"] ("true".data) = true ∧
    validate_query ["Name"] "Name == \"foo\"" = false := by decide

/-- Claim C6, amended: once the dangerous-construct and allowed-character
checks pass, validation accepts a query exactly when every extracted
identifier token (including tokens inside quoted literals) is a known
column, one of the keywords and, or, not, True, False (the Python
capitalization, not lowercase true or false), or parseable as a number;
and any query with a token outside that set is rejected. -/
theorem c6_amended (cols : List String) (q : String) :
    (hasDangerous q = false → allowedOnly q = true →
      (validate_query cols q = true ↔
        ∀ t ∈ tokenize q.data, amended_token_accepted cols t = true)) ∧
    (∀ t ∈ tokenize q.data, amended_token_accepted cols t = false →
      validate_query cols q = false) := by
  have hpt : ∀ t, tokenOk cols t = amended_token_accepted cols t := fun t => rfl
  constructor
  · intro h1 h2
    simp only [validate_query, h1, h2, Bool.not_false, Bool.true_and]
    rw [List.all_eq_true]
    constructor
    · intro ha t ht
      rw [← hpt]
      exact ha t ht
    · intro ha t ht
      rw [hpt]
      exact ha t ht
  · intro t ht hf
    cases hall : (tokenize q.data).all (tokenOk cols) with
    | true =>
      have := List.all_eq_true.mp hall t ht
      rw [hpt, hf] at this
      cases this
    | false => simp [validate_query, hall]

/-- Claim C6, witness: a query over the known column passes, and a query
with an unknown identifier token fails. -/
theorem c6_witness :
    validate_query ["MW"] "MW > 300" = true ∧ validate_query ["MW"] "zzz" = false :=
  ⟨((c6_amended ["MW"] "MW > 300").1 (by decide) (by decide)).mpr (by decide),
    (c6_amended ["MW"] "zzz").2 ("zzz".data) (by decide) (by decide)⟩

/-- Claim C8: on a miss of a full cache exactly the least-recently-used
(last) entry is evicted and the new entry becomes most recent; a hit
returns the stored value without recomputation (the miss counter, which
counts compute invocations, is unchanged) and promotes the entry to most
recent; and concretely with capacity two, inserting keys one, two and three
leaves exactly keys three and two, a lookup of key one from that state is a
miss while lookups of keys two and three are hits returning the cached
values. -/
theorem c8_lru {K V : Type} [DecidableEq K] (c : LruCache K V) (k : K) (f : K → V)
    (p : K × V) :
    (c.entries.find? (fun e => decide (e.1 = k)) = none →
      c.entries.length = c.capacity → 1 ≤ c.capacity →
      (getOrCompute c k f).2.entries = (k, f k) :: c.entries.dropLast ∧
      (getOrCompute c k f).2.misses = c.misses + 1 ∧
      (getOrCompute c k f).2.hits = c.hits) ∧
    (c.entries.find? (fun e => decide (e.1 = k)) = some p →
      (getOrCompute c k f).1 = p.2 ∧
      (getOrCompute c k f).2.entries =
        (k, p.2) :: c.entries.filter (fun e2 => !decide (e2.1 = k)) ∧
      (getOrCompute c k f).2.hits = c.hits + 1 ∧
      (getOrCompute c k f).2.misses = c.misses) ∧
    (c8s3.entries = [(3, 103), (2, 102)] ∧
      (getOrCompute c8s3 1 c8f).2.misses = c8s3.misses + 1 ∧
      (getOrCompute c8s3 2 c8f).2.hits = c8s3.hits + 1 ∧
      (getOrCompute c8s3 2 c8f).1 = 102 ∧
      (getOrCompute c8s3 3 c8f).2.hits = c8s3.hits + 1 ∧
      (getOrCompute c8s3 3 c8f).1 = 103) := by
  refine ⟨?_, ?_, by decide⟩
  · intro hf hlen hcap
    have hne : c.entries ≠ [] := by
      intro hnil
      rw [hnil] at hlen
      simp at hlen
      omega
    have hlt : c.capacity < ((k, f k) :: c.entries).length := by
      simp only [List.length_cons]
      omega
    have hred : getOrCompute c k f =
        (f k,
          { capacity := c.capacity,
            entries :=
              (if c.capacity < ((k, f k) :: c.entries).length
                then ((k, f k) :: c.entries).dropLast
                else (k, f k) :: c.entries),
            hits := c.hits,
            misses := c.misses + 1 }) := by
      unfold getOrCompute
      rw [hf]
    rw [hred, if_pos hlt]
    refine ⟨?_, rfl, rfl⟩
    cases he : c.entries with
    | nil => exact absurd he hne
    | cons a t => rfl
  · intro hf
    have hred : getOrCompute c k f =
        (p.2,
          { capacity := c.capacity,
            entries := (k, p.2) :: c.entries.filter (fun e2 => !decide (e2.1 = k)),
            hits := c.hits + 1,
            misses := c.misses }) := by
      unfold getOrCompute
      rw [hf]
    rw [hred]
    exact ⟨rfl, rfl, rfl, rfl⟩

/-- Claim C8, witness: the general parts applied to a concrete full cache
of capacity two, once for a miss on a fresh key and once for a hit on a
stored key. -/
theorem c8_witness :
    ((getOrCompute c8wc 7 c8f).2.entries = (7, c8f 7) :: c8wc.entries.dropLast ∧
      (getOrCompute c8wc 7 c8f).2.misses = c8wc.misses + 1 ∧
      (getOrCompute c8wc 7 c8f).2.hits = c8wc.hits) ∧
    ((getOrCompute c8wc 5 c8f).1 = ((5 : Nat), (50 : Nat)).2 ∧
      (getOrCompute c8wc 5 c8f).2.entries =
        (5, ((5 : Nat), (50 : Nat)).2) :: c8wc.entries.filter (fun e2 => !decide (e2.1 = 5)) ∧
      (getOrCompute c8wc 5 c8f).2.hits = c8wc.hits + 1 ∧
      (getOrCompute c8wc 5 c8f).2.misses = c8wc.misses) :=
  ⟨(c8_lru c8wc 7 c8f (5, 50)).1 (by decide) (by decide) (by decide),
    (c8_lru c8wc 5 c8f (5, 50)).2.1 (by decide)⟩

/-- Claim C9: for every dataset, the output of the expression filter, of the
case-insensitive substring search and of the inclusive numeric range filter
is a subsequence of the input — same order, no duplication — and its length
is at most the input length. -/
theorem c9_subsequence (e : FilterExpr) (needle c : String) (lo hi : Rat)
    (d : List Record) :
    List.Sublist (evaluate e d) d ∧ (evaluate e d).length ≤ d.length ∧
    List.Sublist (search_smiles needle d) d ∧ (search_smiles needle d).length ≤ d.length ∧
    List.Sublist (filter_numeric_range c lo hi d) d ∧
    (filter_numeric_range c lo hi d).length ≤ d.length := by
  refine ⟨?_, ?_, ?_, ?_, ?_, ?_⟩ <;>
    first
      | exact List.filter_sublist d
      | exact (List.filter_sublist d).length_le

/-- Claim C10: filtering with a filter expression tree is idempotent —
evaluating a tree on the result of evaluating the same tree gives the same
result. -/
theorem c10_idempotent (e : FilterExpr) (d : List Record) :
    evaluate e (evaluate e d) = evaluate e d :=
  filter_idem _ d

end SDFViewer
